import Mathlib

/-!
Verification of the voice-auth-microservice core against its specification.

Byte strings are modelled as `List Nat` (each entry one byte), Python floats
as exact rationals (`Rat`) or reals (`ℝ`) where square roots occur, and
fallible code as `Option`/`Except` values whose `none`/`error` cases are the
exceptions raised by the source.  Each definition is a direct translation of
the named function in the repository.
-/

namespace VoiceAuth

/-! ## Byte-level helpers (struct.pack / struct.unpack, little-endian) -/

/-- Little-endian byte encoding of a 16-bit value, as `struct.pack "<H"`. -/
def le16 (n : Nat) : List Nat := [n % 256, n / 256 % 256]

/-- Little-endian byte encoding of a 32-bit value, as `struct.pack "<I"`. -/
def le32 (n : Nat) : List Nat :=
  [n % 256, n / 256 % 256, n / 2 ^ 16 % 256, n / 2 ^ 24 % 256]

/-- Read a 16-bit little-endian value at offset `off`, as
`struct.unpack "<H"` applied to a two-byte slice of the data. -/
def u16le (d : List Nat) (off : Nat) : Nat :=
  d.getD off 0 + 256 * d.getD (off + 1) 0

/-- Read a 32-bit little-endian value at offset `off`, as
`struct.unpack "<I"` applied to a four-byte slice of the data. -/
def u32le (d : List Nat) (off : Nat) : Nat :=
  d.getD off 0 + 256 * d.getD (off + 1) 0 + 2 ^ 16 * d.getD (off + 2) 0 +
    2 ^ 24 * d.getD (off + 3) 0

/-! ## src/utils/audio_utils.py -/

/-- Function `pcm_to_wav` of `src/utils/audio_utils.py`.  Builds the 44-byte
RIFF/WAVE header with `struct.pack "<4sI4s4sIHHIIHH4sI"` and prepends it to
the PCM payload.  `none` is the raised `AudioProcessingError`: empty PCM
input, or a header field out of range for its `struct` format code
(`struct.error`). -/
def pcm_to_wav (pcm : List Nat) (sample_rate channels sample_width : Nat) :
    Option (List Nat) :=
  if pcm.length = 0 then none
  else
    let data_size := pcm.length
    let file_size := data_size + 36
    let byte_rate := sample_rate * channels * sample_width
    let block_align := channels * sample_width
    if file_size < 2 ^ 32 ∧ channels < 2 ^ 16 ∧ sample_rate < 2 ^ 32 ∧
        byte_rate < 2 ^ 32 ∧ block_align < 2 ^ 16 ∧ sample_width * 8 < 2 ^ 16 ∧
        data_size < 2 ^ 32 then
      some ([82, 73, 70, 70] ++ le32 file_size ++ [87, 65, 86, 69] ++
        [102, 109, 116, 32] ++ le32 16 ++ le16 1 ++ le16 channels ++
        le32 sample_rate ++ le32 byte_rate ++ le16 block_align ++
        le16 (sample_width * 8) ++ [100, 97, 116, 97] ++ le32 data_size ++ pcm)
    else none

/-- Function `validate_audio_format` of `src/utils/audio_utils.py`: header
length, RIFF and WAVE magic, then mono / 16 kHz / 16-bit checks, each with
the reason string the source returns. -/
def validate_audio_format (d : List Nat) : Bool × String :=
  if d.length < 44 then (false, "Audio data too short to contain WAV header")
  else if ¬ (d.take 4 = [82, 73, 70, 70] ∧ (d.drop 8).take 4 = [87, 65, 86, 69]) then
    (false, "Not a valid WAV file")
  else
    let channels := u16le d 22
    let sample_rate := u32le d 24
    let bits_per_sample := u16le d 34
    if channels ≠ 1 then
      (false, "Expected mono (1 channel), got " ++ toString channels ++ " channels")
    else if sample_rate ≠ 16000 then
      (false, "Expected 16kHz sample rate, got " ++ toString sample_rate ++ "Hz")
    else if bits_per_sample ≠ 16 then
      (false, "Expected 16-bit samples, got " ++ toString bits_per_sample ++ "-bit")
    else (true, "Valid 16kHz mono WAV format")

/-- Function `get_audio_duration` of `src/utils/audio_utils.py`.  Reads the
channel count, sample rate and bits-per-sample from the header, then divides
the payload size by the derived byte rate.  `none` is the raised
`AudioProcessingError`: header shorter than 44 bytes, or the
`ZeroDivisionError` the source catches when the byte rate is zero. -/
def get_audio_duration (d : List Nat) : Option Rat :=
  if d.length < 44 then none
  else
    let channels := u16le d 22
    let sample_rate := u32le d 24
    let bits_per_sample := u16le d 34
    let data_size := d.length - 44
    let bytes_per_sample := bits_per_sample / 8
    let bytes_per_second := sample_rate * channels * bytes_per_sample
    if bytes_per_second = 0 then none
    else some ((data_size : Rat) / (bytes_per_second : Rat))

example : pcm_to_wav [] 16000 1 2 = none := by decide

example : (pcm_to_wav [7, 7] 16000 1 2).map validate_audio_format =
    some (true, "Valid 16kHz mono WAV format") := by decide

example : (pcm_to_wav [7, 7] 16000 1 2).bind get_audio_duration =
    some (2 / 32000 : Rat) := by
  norm_num [pcm_to_wav, get_audio_duration, le16, le32, u16le, u32le]

/-- Normal form of `pcm_to_wav` at the canonical parameters (16 kHz, mono,
16-bit): the explicit 44-byte header followed by the payload, for nonempty
PCM whose derived header fields fit their `struct` format codes. -/
theorem pcm_to_wav_canonical (pcm : List Nat) (h0 : pcm ≠ [])
    (hsz : pcm.length + 36 < 2 ^ 32) :
    pcm_to_wav pcm 16000 1 2 =
      some (82 :: 73 :: 70 :: 70 ::
        ((pcm.length + 36) % 256) :: ((pcm.length + 36) / 256 % 256) ::
        ((pcm.length + 36) / 2 ^ 16 % 256) :: ((pcm.length + 36) / 2 ^ 24 % 256) ::
        87 :: 65 :: 86 :: 69 :: 102 :: 109 :: 116 :: 32 ::
        16 :: 0 :: 0 :: 0 :: 1 :: 0 :: 1 :: 0 ::
        128 :: 62 :: 0 :: 0 :: 0 :: 125 :: 0 :: 0 :: 2 :: 0 :: 16 :: 0 ::
        100 :: 97 :: 116 :: 97 ::
        (pcm.length % 256) :: (pcm.length / 256 % 256) ::
        (pcm.length / 2 ^ 16 % 256) :: (pcm.length / 2 ^ 24 % 256) :: pcm) := by
  have hlen : pcm.length ≠ 0 := by simpa [List.length_eq_zero] using h0
  have hcond : pcm.length + 36 < 2 ^ 32 ∧ (1 : Nat) < 2 ^ 16 ∧
      (16000 : Nat) < 2 ^ 32 ∧ 16000 * 1 * 2 < 2 ^ 32 ∧ 1 * 2 < 2 ^ 16 ∧
      2 * 8 < 2 ^ 16 ∧ pcm.length < 2 ^ 32 :=
    ⟨hsz, by norm_num, by norm_num, by norm_num, by norm_num, by norm_num, by omega⟩
  simp only [pcm_to_wav, if_neg hlen, if_pos hcond, le16, le32, List.cons_append,
    List.nil_append]
  norm_num

/-- Claim C4 (amended): for every nonempty PCM byte string whose derived
header fields fit their `struct` format codes (payload length plus 36 below
`2 ^ 32`), wrapping with `pcm_to_wav` at 16 kHz / mono / 16-bit yields bytes
that `validate_audio_format` accepts, and `get_audio_duration` of the result
is the payload length divided by 32000 seconds. -/
theorem pcm_to_wav_round_trip (pcm : List Nat) (h0 : pcm ≠ [])
    (hsz : pcm.length + 36 < 2 ^ 32) :
    ∃ w, pcm_to_wav pcm 16000 1 2 = some w ∧
      validate_audio_format w = (true, "Valid 16kHz mono WAV format") ∧
      get_audio_duration w = some ((pcm.length : Rat) / 32000) := by
  refine ⟨_, pcm_to_wav_canonical pcm h0 hsz, ?_, ?_⟩
  · simp only [validate_audio_format, u16le, u32le]
    norm_num
  · simp only [get_audio_duration, u16le, u32le]
    norm_num
    ring_nf

/-- Witness for claim C4 at the concrete two-byte payload `[7, 7]`. -/
theorem pcm_to_wav_round_trip_witness :
    ([7, 7] : List Nat) ≠ [] ∧ ([7, 7] : List Nat).length + 36 < 2 ^ 32 ∧
      ∃ w, pcm_to_wav [7, 7] 16000 1 2 = some w ∧
        validate_audio_format w = (true, "Valid 16kHz mono WAV format") ∧
        get_audio_duration w = some ((([7, 7] : List Nat).length : Rat) / 32000) :=
  ⟨by decide, by norm_num,
    pcm_to_wav_round_trip [7, 7] (by decide) (by norm_num)⟩

/-- Counterexample to claim C4 as stated: at the empty PCM byte string,
`pcm_to_wav` raises `AudioProcessingError` (modelled as `none`) instead of
yielding bytes that validate. -/
theorem pcm_to_wav_empty_refutes_claim :
    ¬ ∃ w, pcm_to_wav [] 16000 1 2 = some w ∧
        (validate_audio_format w).1 = true ∧
        get_audio_duration w = some (((List.length ([] : List Nat)) : Rat) / 32000) := by
  rintro ⟨w, hw, -⟩
  simp [pcm_to_wav] at hw

/-- Claim C10: `get_audio_duration` never propagates an unguarded division by
zero.  Every input shorter than 44 bytes, and every input of at least 44
bytes whose header encodes zero sample rate, zero channels, or fewer than 8
bits per sample, is answered with `AudioProcessingError` (modelled as
`none`) rather than a value or an uncaught `ZeroDivisionError`. -/
theorem get_audio_duration_division_guarded (d : List Nat)
    (h : d.length < 44 ∨ u32le d 24 = 0 ∨ u16le d 22 = 0 ∨ u16le d 34 < 8) :
    get_audio_duration d = none := by
  by_cases hl : d.length < 44
  · simp [get_audio_duration, hl]
  · have hz : u32le d 24 * u16le d 22 * (u16le d 34 / 8) = 0 := by
      rcases h with h | h | h | h
      · omega
      · simp [h]
      · simp [h]
      · have hb : u16le d 34 / 8 = 0 := Nat.div_eq_of_lt h
        simp [hb]
    simp [get_audio_duration, hl, hz]

/-- Witness for claim C10 at a 44-byte input whose header is all zeros. -/
theorem get_audio_duration_division_guarded_witness :
    ((List.replicate 44 0).length < 44 ∨ u32le (List.replicate 44 0) 24 = 0 ∨
        u16le (List.replicate 44 0) 22 = 0 ∨ u16le (List.replicate 44 0) 34 < 8) ∧
      get_audio_duration (List.replicate 44 0) = none :=
  ⟨by decide, get_audio_duration_division_guarded (List.replicate 44 0) (by decide)⟩

/-! ## src/clients/vapi_client.py — live capture state machine

Each incoming WebSocket frame is modelled together with its arrival instant
(a rational timestamp); the several `time.time()` reads the source performs
while handling one frame are identified with that single instant.  The
silence decision `_detect_silence` involves a real-valued RMS and is
abstracted as a Boolean predicate `sil` on the decoded chunk; every theorem
below quantifies over all such predicates, so it holds in particular for the
RMS thresholding of the source. -/

/-- Configuration slice of `VAPIWebSocketClient` read by the capture loop. -/
structure CaptureConfig where
  silence_duration : Rat
  max_audio_duration : Rat
deriving DecidableEq

/-- Mutable state of `VAPIWebSocketClient` during `capture_audio`: buffered
PCM chunks, the silence timer, and the capture start time (the latter two
are floats in the source, with Python truthiness — `0.0` falsy). -/
structure CaptureState where
  audio_buffer : List (List Nat)
  silence_start_time : Option Rat
  capture_start_time : Rat
deriving DecidableEq

/-- One incoming text frame as seen by `_process_audio_message`.  `skip`
covers every shape the source logs and ignores identically before touching
any state: invalid JSON, JSON without an `audio` key, and an `audio` value
whose base64 body fails to decode.  `audio` carries the decoded PCM bytes. -/
inductive Frame
  | skip
  | audio (chunk : List Nat)
deriving DecidableEq

/-- Maximum-duration branch of `_should_stop_capture`, guarded by the
truthiness of `capture_start_time`. -/
def max_cond (cfg : CaptureConfig) (st : CaptureState) (now : Rat) : Bool :=
  decide (st.capture_start_time ≠ 0) &&
    decide (now - st.capture_start_time ≥ cfg.max_audio_duration)

/-- Silence branch of `_should_stop_capture`, guarded by the truthiness of
`silence_start_time` (`None` and `0.0` both falsy). -/
def silence_cond (cfg : CaptureConfig) (st : CaptureState) (now : Rat) : Bool :=
  match st.silence_start_time with
  | none => false
  | some s => decide (s ≠ 0) && decide (now - s ≥ cfg.silence_duration)

/-- Method `_should_stop_capture`, evaluated at instant `now`. -/
def should_stop_capture (cfg : CaptureConfig) (st : CaptureState) (now : Rat) : Bool :=
  max_cond cfg st now || silence_cond cfg st now

/-- Buffer append performed by `_process_audio_message` on a usable chunk. -/
def append_chunk (st : CaptureState) (chunk : List Nat) : CaptureState :=
  { st with audio_buffer := st.audio_buffer ++ [chunk] }

/-- Silence-timer update of `_process_audio_message`: start the timer on
silence when it is unset, clear it on audio activity. -/
def update_silence_timer (st : CaptureState) (is_sil : Bool) (now : Rat) :
    CaptureState :=
  if is_sil then
    match st.silence_start_time with
    | none => { st with silence_start_time := some now }
    | some _ => st
  else
    match st.silence_start_time with
    | some _ => { st with silence_start_time := none }
    | none => st

/-- Method `_process_audio_message` for one frame arriving at instant `now`:
frames without a usable chunk and empty chunks return the state unchanged
with the continue flag set; a usable chunk is buffered, the silence timer is
updated, and the continue flag is the negated `_should_stop_capture`. -/
def process_audio_message (cfg : CaptureConfig) (sil : List Nat → Bool)
    (st : CaptureState) (now : Rat) : Frame → CaptureState × Bool
  | .skip => (st, true)
  | .audio chunk =>
    if chunk.length = 0 then (st, true)
    else
      let st2 := update_silence_timer (append_chunk st chunk) (sil chunk) now
      (st2, ! should_stop_capture cfg st2 now)

/-- Capture loop of `capture_audio`: process each frame in arrival order,
breaking when the continue flag clears; after a frame that continues, clear
the silence timer whenever the elapsed time is still below `min_duration`
and the timer is truthy.  Returns the final state and whether the loop was
ended by the stop condition (`true`) or by the stream closing (`false`). -/
def capture_loop (cfg : CaptureConfig) (sil : List Nat → Bool)
    (min_duration : Rat) : CaptureState → List (Rat × Frame) →
    CaptureState × Bool
  | st, [] => (st, false)
  | st, (now, f) :: rest =>
    let p := process_audio_message cfg sil st now f
    if p.2 then
      let elapsed := now - p.1.capture_start_time
      let st2 :=
        if elapsed < min_duration then
          match p.1.silence_start_time with
          | some s => if s ≠ 0 then { p.1 with silence_start_time := none } else p.1
          | none => p.1
        else p.1
      capture_loop cfg sil min_duration st2 rest
    else (p.1, true)

/-- State `capture_audio` installs before its loop: cleared buffer, cleared
silence timer, capture start stamped with the current instant `t0`. -/
def initial_capture_state (t0 : Rat) : CaptureState := ⟨[], none, t0⟩

/-- Method `capture_audio` end to end over a finite incoming stream: run the
loop from the reset state, then raise `VAPIAudioError` (modelled as `none`,
message `No audio data captured`) when nothing was buffered, else wrap the
concatenated PCM via `pcm_to_wav` at the client defaults. -/
def capture_audio (cfg : CaptureConfig) (sil : List Nat → Bool)
    (min_duration t0 : Rat) (frames : List (Rat × Frame)) : Option (List Nat) :=
  let st := (capture_loop cfg sil min_duration (initial_capture_state t0) frames).1
  if st.audio_buffer.length = 0 then none
  else pcm_to_wav st.audio_buffer.flatten 16000 1 2

/-- Scenario of claim C2: some frame breaks the capture loop through the
silence branch of `_should_stop_capture` (the maximum-duration branch being
false there) while the elapsed time is still below `min_duration`.  The
decomposition pins the frame at which the loop breaks: the preceding frames
leave the loop running. -/
def stops_by_silence_before_min (cfg : CaptureConfig) (sil : List Nat → Bool)
    (min_duration t0 : Rat) (frames : List (Rat × Frame)) : Prop :=
  ∃ pre now f post st,
    frames = pre ++ (now, f) :: post ∧
    capture_loop cfg sil min_duration (initial_capture_state t0) pre = (st, false) ∧
    silence_cond cfg (process_audio_message cfg sil st now f).1 now = true ∧
    max_cond cfg (process_audio_message cfg sil st now f).1 now = false ∧
    now - t0 < min_duration

example :
    capture_loop ⟨0, 30⟩ (fun _ => true) 3 (initial_capture_state 1)
      [(2, .audio [0, 0])] =
    (⟨[[0, 0]], some 2, 1⟩, true) := by
  norm_num [capture_loop, process_audio_message, update_silence_timer,
    append_chunk, should_stop_capture, max_cond, silence_cond,
    initial_capture_state]

example :
    capture_loop ⟨2, 30⟩ (fun _ => true) 3 (initial_capture_state 1)
      [(2, .audio [0, 0])] =
    (⟨[[0, 0]], none, 1⟩, false) := by
  norm_num [capture_loop, process_audio_message, update_silence_timer,
    append_chunk, should_stop_capture, max_cond, silence_cond,
    initial_capture_state]

theorem update_silence_timer_capture_start (st : CaptureState) (b : Bool)
    (now : Rat) :
    (update_silence_timer st b now).capture_start_time = st.capture_start_time := by
  cases b <;> cases h : st.silence_start_time <;>
    simp [update_silence_timer, h]

theorem update_silence_timer_silence (st : CaptureState) (b : Bool) (now : Rat) :
    (update_silence_timer st b now).silence_start_time = none ∨
      (update_silence_timer st b now).silence_start_time = some now ∨
      (update_silence_timer st b now).silence_start_time = st.silence_start_time := by
  cases b <;> cases h : st.silence_start_time <;>
    simp [update_silence_timer, h]

theorem process_audio_message_capture_start (cfg : CaptureConfig)
    (sil : List Nat → Bool) (st : CaptureState) (now : Rat) (f : Frame) :
    ((process_audio_message cfg sil st now f).1).capture_start_time =
      st.capture_start_time := by
  cases f with
  | skip => rfl
  | audio chunk =>
    by_cases hc : chunk.length = 0 <;>
      simp [process_audio_message, hc, update_silence_timer_capture_start,
        append_chunk]

theorem process_audio_message_silence (cfg : CaptureConfig)
    (sil : List Nat → Bool) (st : CaptureState) (now : Rat) (f : Frame) :
    ((process_audio_message cfg sil st now f).1).silence_start_time = none ∨
      ((process_audio_message cfg sil st now f).1).silence_start_time = some now ∨
      ((process_audio_message cfg sil st now f).1).silence_start_time =
        st.silence_start_time := by
  cases f with
  | skip => right; right; rfl
  | audio chunk =>
    by_cases hc : chunk.length = 0
    · right; right; simp [process_audio_message, hc]
    · have := update_silence_timer_silence (append_chunk st chunk) (sil chunk) now
      simpa [process_audio_message, hc, append_chunk] using this

/-- Loop-carried property behind the minimum-duration gate: the capture
start is the session start `t0`, and any truthy silence timer was set at an
instant at least `min_duration` after `t0`. -/
def silence_inv (min_duration t0 : Rat) (st : CaptureState) : Prop :=
  st.capture_start_time = t0 ∧
    ∀ s, st.silence_start_time = some s → 0 < s ∧ min_duration ≤ s - t0

theorem capture_loop_inv (cfg : CaptureConfig) (sil : List Nat → Bool)
    (min_duration t0 : Rat) (frames : List (Rat × Frame)) :
    ∀ st, silence_inv min_duration t0 st → (∀ p ∈ frames, 0 < p.1) →
      ∀ st', capture_loop cfg sil min_duration st frames = (st', false) →
        silence_inv min_duration t0 st' := by
  induction frames with
  | nil =>
    intro st hst _ st' h
    simp only [capture_loop, Prod.mk.injEq] at h
    exact h.1 ▸ hst
  | cons p rest ih =>
    obtain ⟨now, f⟩ := p
    intro st hst hpos st' hrun
    have hnow : 0 < now := hpos (now, f) (List.mem_cons_self _ _)
    simp only [capture_loop] at hrun
    by_cases hcont : (process_audio_message cfg sil st now f).2
    · rw [if_pos hcont] at hrun
      refine ih _ ?_ (fun q hq => hpos q (List.mem_cons_of_mem _ hq)) st' hrun
      have hcs : ((process_audio_message cfg sil st now f).1).capture_start_time = t0 :=
        (process_audio_message_capture_start cfg sil st now f).trans hst.1
      have hsi := process_audio_message_silence cfg sil st now f
      split
      · split
        · rename_i helapsed s heq
          have hs0 : s ≠ 0 := by
            rcases hsi with hn | hn | hn
            · rw [heq] at hn; cases hn
            · rw [heq] at hn
              have : s = now := by injection hn
              exact this ▸ ne_of_gt hnow
            · exact ne_of_gt (hst.2 s (hn ▸ heq)).1
          rw [if_pos hs0]
          exact ⟨hcs, by simp⟩
        · rename_i helapsed heq
          exact ⟨hcs, fun s hs => by rw [hs] at heq; cases heq⟩
      · rename_i helapsed
        refine ⟨hcs, fun s hs => ?_⟩
        rcases hsi with hn | hn | hn
        · rw [hs] at hn; cases hn
        · rw [hs] at hn
          have hsnow : s = now := by injection hn
          subst hsnow
          rw [hcs] at helapsed
          exact ⟨hnow, by linarith⟩
        · exact hst.2 s (hn ▸ hs)
    · rw [if_neg hcont] at hrun
      simp only [Prod.mk.injEq] at hrun
      exact absurd hrun.2 (by simp)

/-- Claim C2 (amended): with a strictly positive `silence_duration` and
positive frame timestamps, the capture session is never stopped by the
silence branch of `_should_stop_capture` while the elapsed time is still
below `min_duration` — the minimum-duration gate clears any silence timer
started before the window elapses.  At `silence_duration = 0` the claim as
stated fails, because `_process_audio_message` consults the stop condition
before `capture_audio` applies the gate. -/
theorem capture_no_silence_stop_before_min (cfg : CaptureConfig)
    (sil : List Nat → Bool) (min_duration t0 : Rat)
    (frames : List (Rat × Frame)) (hsd : 0 < cfg.silence_duration)
    (ht : ∀ p ∈ frames, 0 < p.1) :
    ¬ stops_by_silence_before_min cfg sil min_duration t0 frames := by
  rintro ⟨pre, now, f, post, st, hfr, hpre, hsil, hmax, hlt⟩
  have hpos_pre : ∀ p ∈ pre, 0 < p.1 := fun p hp =>
    ht p (hfr ▸ List.mem_append_left _ hp)
  have hnow : 0 < now :=
    ht (now, f) (hfr ▸ List.mem_append_right _ (List.mem_cons_self _ _))
  have hinv : silence_inv min_duration t0 st :=
    capture_loop_inv cfg sil min_duration t0 pre (initial_capture_state t0)
      ⟨rfl, by simp [initial_capture_state]⟩ hpos_pre st hpre
  obtain ⟨s, hs, hs0, hsge⟩ :
      ∃ s, ((process_audio_message cfg sil st now f).1).silence_start_time = some s ∧
        s ≠ 0 ∧ cfg.silence_duration ≤ now - s := by
    unfold silence_cond at hsil
    rcases h : ((process_audio_message cfg sil st now f).1).silence_start_time
      with _ | s
    · rw [h] at hsil; cases hsil
    · rw [h] at hsil
      simp only [Bool.and_eq_true, decide_eq_true_eq] at hsil
      exact ⟨s, rfl, hsil.1, hsil.2⟩
  rcases process_audio_message_silence cfg sil st now f with hn | hn | hn
  · rw [hs] at hn; cases hn
  · rw [hs] at hn
    have : s = now := by injection hn
    subst this
    linarith
  · have hmem := hinv.2 s (hn ▸ hs)
    have hlt' : s < now := by linarith
    linarith [hmem.2]

/-- Counterexample to claim C2 as stated: with `silence_duration = 0` and
`min_duration = 3` (both allowed by the claim), a single silent frame at
elapsed time 1 breaks the capture loop through the silence branch before the
minimum window has elapsed. -/
theorem capture_silence_stop_before_min_at_zero :
    (0 : Rat) ≤ 0 ∧ (0 : Rat) ≤ 3 ∧
      stops_by_silence_before_min ⟨0, 30⟩ (fun _ => true) 3 1
        [(2, .audio [0, 0])] := by
  refine ⟨le_refl 0, by norm_num,
    [], 2, .audio [0, 0], [], initial_capture_state 1, rfl, rfl, ?_, ?_, by norm_num⟩
  · norm_num [process_audio_message, update_silence_timer, append_chunk,
      silence_cond, initial_capture_state]
  · norm_num [process_audio_message, update_silence_timer, append_chunk,
      max_cond, initial_capture_state]

/-- Witness for the amended claim C2 at a concrete silent frame arriving
after one second with the default `silence_duration = 2`. -/
theorem capture_no_silence_stop_before_min_witness :
    (0 : Rat) < 2 ∧ (∀ p ∈ [((2 : Rat), Frame.audio [0, 0])], 0 < p.1) ∧
      ¬ stops_by_silence_before_min ⟨2, 30⟩ (fun _ => true) 3 1
          [(2, .audio [0, 0])] :=
  ⟨by norm_num, by norm_num,
    capture_no_silence_stop_before_min ⟨2, 30⟩ (fun _ => true) 3 1
      [(2, .audio [0, 0])] (by norm_num) (by norm_num)⟩

/-- Claim C3 evaluated on the code: a session fed only frames without an
audio key never stops, whatever the frame times — `_process_audio_message`
returns before consulting `_should_stop_capture` on such frames, so
`max_duration` never fires; the loop runs until the stream closes, and only
then does the empty buffer raise `VAPIAudioError` (`No audio data
captured`, modelled as `none`). -/
theorem capture_skip_frames_never_stop (cfg : CaptureConfig)
    (sil : List Nat → Bool) (min_duration t0 : Rat)
    (frames : List (Rat × Frame)) (hf : ∀ p ∈ frames, p.2 = Frame.skip) :
    capture_loop cfg sil min_duration (initial_capture_state t0) frames =
        (initial_capture_state t0, false) ∧
      capture_audio cfg sil min_duration t0 frames = none := by
  have key : ∀ (fs : List (Rat × Frame)), (∀ p ∈ fs, p.2 = Frame.skip) →
      ∀ st : CaptureState, st.silence_start_time = none →
        capture_loop cfg sil min_duration st fs = (st, false) := by
    intro fs
    induction fs with
    | nil => intro _ st _; rfl
    | cons p rest ih =>
      obtain ⟨now, f⟩ := p
      intro hfs st hnone
      have hskip : f = Frame.skip := hfs (now, f) (List.mem_cons_self _ _)
      subst hskip
      simp only [capture_loop, process_audio_message, hnone, ite_self, if_true]
      exact ih (fun q hq => hfs q (List.mem_cons_of_mem _ hq)) st hnone
  have hloop := key frames hf (initial_capture_state t0) rfl
  refine ⟨hloop, ?_⟩
  simp only [capture_audio, hloop]
  simp [initial_capture_state]

/-- Witness for the claim C3 evaluation: two audio-less frames arriving at
elapsed times 49 and 99, far past `max_duration = 30`, leave the loop
running and the session ends in `No audio data captured` only when the
stream closes. -/
theorem capture_skip_frames_never_stop_witness :
    (∀ p ∈ [((50 : Rat), Frame.skip), ((100 : Rat), Frame.skip)],
        p.2 = Frame.skip) ∧
      capture_loop ⟨2, 30⟩ (fun _ => true) 3 (initial_capture_state 1)
          [(50, .skip), (100, .skip)] = (initial_capture_state 1, false) ∧
      capture_audio ⟨2, 30⟩ (fun _ => true) 3 1 [(50, .skip), (100, .skip)] =
        none :=
  ⟨by simp, capture_skip_frames_never_stop ⟨2, 30⟩ (fun _ => true) 3 1
    [(50, .skip), (100, .skip)] (by simp)⟩

/-! ## src/services/embedding_service.py

Embeddings are numpy float arrays in the source; they are modelled as lists
of real numbers, the value space of finite doubles.  NaN and infinities do
not occur in this space, so the `np.isfinite` branch of
`validate_embedding` is identically satisfied and does not appear below.
Comparisons of real numbers are classical, hence the definitions in this
section are noncomputable and their concrete instances are settled by
explicit terms rather than by evaluation. -/

/-- Dot product `np.dot` of two one-dimensional arrays: the sum of the
elementwise products. -/
def dotList (a b : List ℝ) : ℝ := (List.zipWith (· * ·) a b).sum

/-- Euclidean norm `np.linalg.norm` of a vector: the square root of the sum
of the squared entries. -/
noncomputable def normL2 (a : List ℝ) : ℝ := Real.sqrt (dotList a a)

/-- Clamp `np.clip x lo hi`: the maximum with `lo`, then the minimum with
`hi`. -/
noncomputable def np_clip (x lo hi : ℝ) : ℝ := min (max x lo) hi

/-- Method `compute_cosine_similarity`: reject mismatched shapes, lengths
other than 192 and zero-norm inputs (`ValueError`, modelled as `none`),
else the dot product over the product of norms, clipped to `[-1, 1]`. -/
noncomputable def compute_cosine_similarity (e1 e2 : List ℝ) : Option ℝ :=
  if e1.length ≠ e2.length then none
  else if e1.length ≠ 192 then none
  else
    let norm1 := normL2 e1
    let norm2 := normL2 e2
    if norm1 = 0 ∨ norm2 = 0 then none
    else some (np_clip (dotList e1 e2 / (norm1 * norm2)) (-1) 1)

/-- Method `verify_speaker`: reject thresholds outside `[0, 1]`
(`ValueError`, modelled as `none`), else pair the comparison of the cosine
similarity against the threshold with the similarity itself. -/
noncomputable def verify_speaker (e1 e2 : List ℝ) (threshold : ℝ) :
    Option (Bool × ℝ) :=
  if ¬ (0 ≤ threshold ∧ threshold ≤ 1) then none
  else
    match compute_cosine_similarity e1 e2 with
    | none => none
    | some s => some (decide (threshold ≤ s), s)

theorem dotList_self_nonneg (u : List ℝ) : 0 ≤ dotList u u := by
  induction u with
  | nil => simp [dotList]
  | cons a l ih =>
    simp only [dotList, List.zipWith_cons_cons, List.sum_cons] at ih ⊢
    nlinarith [mul_self_nonneg a]

theorem dotList_replicate (n : Nat) (c : ℝ) :
    dotList (List.replicate n c) (List.replicate n c) = n * (c * c) := by
  induction n with
  | zero => simp [dotList]
  | succ m ih =>
    simp only [List.replicate_succ, dotList, List.zipWith_cons_cons,
      List.sum_cons] at ih ⊢
    rw [ih]
    push_cast
    ring

/-- Claim C5 (amended): for a 192-entry vector with nonzero norm and a
threshold in `[0, 1]`, `verify_speaker` of the vector against itself
returns a match with score exactly 1.  For thresholds below 0 the source
raises `ValueError` instead (see the counterexample). -/
theorem verify_speaker_self (u : List ℝ) (hlen : u.length = 192)
    (hnorm : normL2 u ≠ 0) (threshold : ℝ) (h0 : 0 ≤ threshold)
    (h1 : threshold ≤ 1) :
    verify_speaker u u threshold = some (true, 1) := by
  have hdot_nonneg : 0 ≤ dotList u u := dotList_self_nonneg u
  have hdot_ne : dotList u u ≠ 0 := by
    intro h
    exact hnorm (by unfold normL2; rw [h, Real.sqrt_zero])
  have hnn : normL2 u * normL2 u = dotList u u := Real.mul_self_sqrt hdot_nonneg
  have hclip : np_clip (dotList u u / (normL2 u * normL2 u)) (-1) 1 = 1 := by
    rw [hnn, div_self hdot_ne]
    unfold np_clip
    rw [max_eq_left (by norm_num), min_self]
  unfold verify_speaker
  rw [if_neg (not_not_intro ⟨h0, h1⟩)]
  unfold compute_cosine_similarity
  rw [if_neg (by simp), if_neg (by simp [hlen])]
  rw [if_neg (by simp [hnorm])]
  simp only [hclip, Option.some.injEq, Prod.mk.injEq, decide_eq_true_eq]
  exact ⟨h1, trivial⟩

/-- Unit vector along the first coordinate, used as the concrete enrolled
embedding in the instances below. -/
def e_unit : List ℝ := 1 :: List.replicate 191 0

theorem dotList_cons (a b : ℝ) (as bs : List ℝ) :
    dotList (a :: as) (b :: bs) = a * b + dotList as bs := by
  simp [dotList, List.zipWith_cons_cons]

theorem dotList_e_unit : dotList e_unit e_unit = 1 := by
  unfold e_unit
  rw [dotList_cons, dotList_replicate]
  norm_num

theorem normL2_e_unit : normL2 e_unit = 1 := by
  unfold normL2
  rw [dotList_e_unit, Real.sqrt_one]

/-- Counterexample to claim C5 as stated: the claim quantifies over every
threshold at most 1, but at the threshold -1 (with a valid 192-entry unit
vector) `verify_speaker` raises `ValueError` (modelled as `none`) instead
of returning a match with score 1. -/
theorem verify_speaker_neg_threshold_refutes_claim :
    e_unit.length = 192 ∧ normL2 e_unit ≠ 0 ∧ ((-1 : ℝ) ≤ 1) ∧
      verify_speaker e_unit e_unit (-1) ≠ some (true, 1) := by
  refine ⟨rfl, by rw [normL2_e_unit]; norm_num, by norm_num, ?_⟩
  unfold verify_speaker
  rw [if_pos (by intro h; linarith [h.1])]
  simp

/-- Witness for the amended claim C5 at the concrete unit vector and
threshold one half. -/
theorem verify_speaker_self_witness :
    e_unit.length = 192 ∧ normL2 e_unit ≠ 0 ∧ ((0 : ℝ) ≤ 1 / 2) ∧
      ((1 : ℝ) / 2 ≤ 1) ∧ verify_speaker e_unit e_unit (1 / 2) = some (true, 1) :=
  ⟨rfl, by rw [normL2_e_unit]; norm_num, by norm_num, by norm_num,
    verify_speaker_self e_unit rfl
      (by rw [normL2_e_unit]; norm_num) (1 / 2) (by norm_num) (by norm_num)⟩

/-- Input to `validate_embedding`: a Python value that either is not a
numpy array, or is an array with its number of dimensions and its entries
(for one-dimensional arrays the first shape component is the entry
count). -/
inductive EmbInput
  | notArray
  | array (ndim : Nat) (entries : List ℝ)

/-- Test `np.allclose(embedding, 0)` at the default tolerances (relative
1e-5, absolute 1e-8): against the scalar 0 the bound degenerates to the
absolute one, so every entry must satisfy `|x| ≤ 1e-8`. -/
noncomputable def allclose_zero (entries : List ℝ) : Bool :=
  entries.all fun x => decide (|x| ≤ 1 / 10 ^ 8)

/-- Method `validate_embedding`: false for non-arrays, for dimensionality
other than 1 or length other than 192, and for arrays `np.allclose` deems
zero; true otherwise. -/
noncomputable def validate_embedding : EmbInput → Bool
  | .notArray => false
  | .array ndim entries =>
    if ndim ≠ 1 ∨ entries.length ≠ 192 then false
    else if allclose_zero entries then false
    else true

/-- Claim C9: `validate_embedding` answers false on non-array input, and
rejects every 192-entry vector all of whose entries lie within the
`np.allclose` tolerance of zero — also vectors of nonzero norm. -/
theorem validate_embedding_subthreshold (e : List ℝ) (hlen : e.length = 192)
    (hsmall : ∀ x ∈ e, |x| ≤ 1 / 10 ^ 8) :
    validate_embedding (.array 1 e) = false ∧
      validate_embedding .notArray = false := by
  refine ⟨?_, rfl⟩
  show (if (1 : Nat) ≠ 1 ∨ e.length ≠ 192 then false
      else if allclose_zero e then false else true) = false
  rw [if_neg (by simp [hlen])]
  rw [if_pos (by simp only [allclose_zero, List.all_eq_true,
    decide_eq_true_eq]; exact hsmall)]

/-- Witness for claim C9 at the constant vector with entries 1e-9: inside
the tolerance, yet of nonzero norm. -/
theorem validate_embedding_subthreshold_witness :
    (List.replicate 192 ((1 : ℝ) / 10 ^ 9)).length = 192 ∧
      (∀ x ∈ List.replicate 192 ((1 : ℝ) / 10 ^ 9), |x| ≤ 1 / 10 ^ 8) ∧
      dotList (List.replicate 192 ((1 : ℝ) / 10 ^ 9))
          (List.replicate 192 ((1 : ℝ) / 10 ^ 9)) ≠ 0 ∧
      validate_embedding (.array 1 (List.replicate 192 ((1 : ℝ) / 10 ^ 9))) =
        false ∧
      validate_embedding .notArray = false := by
  have habs : ∀ x ∈ List.replicate 192 ((1 : ℝ) / 10 ^ 9), |x| ≤ 1 / 10 ^ 8 := by
    intro x hx
    rw [List.eq_of_mem_replicate hx]
    rw [abs_of_pos (by norm_num)]
    norm_num
  have hmain := validate_embedding_subthreshold
    (List.replicate 192 ((1 : ℝ) / 10 ^ 9)) rfl habs
  refine ⟨rfl, habs, ?_, hmain.1, hmain.2⟩
  rw [dotList_replicate]
  norm_num

/-! ## src/services/auth_service.py

`verify_user` and `enroll_user` orchestrate awaited collaborator calls;
each collaborator outcome is a field of an environment record, and the
functions below replay the source's control flow over those outcomes.
Every `Except.error ()` is a raised `VerificationError` resp. the named
`EnrollmentError` kind.  The second component of `verify_user` collects the
`(success, score)` argument pairs of the `_log_auth_attempt` calls made;
`_log_auth_attempt` itself swallows any failure of the store call, so one
invocation appends at most one attempt row and never raises. -/

/-- Exception kinds `capture_audio_from_vapi` raises:
`VAPIConnectionError` or `VAPIAudioError`. -/
inductive CaptureErr
  | conn
  | audio
deriving DecidableEq

/-- Result messages of `verify_user`, in source order: `User not enrolled
for voice authentication`, `Captured audio too short for verification`,
`Failed to process captured audio`, `Voice verification successful`, and
the below-threshold failure message carrying the formatted score. -/
inductive VerifyMsg
  | notEnrolled
  | tooShort
  | processingFailed
  | success
  | belowThreshold
deriving DecidableEq

/-- Collaborator outcomes one `verify_user` call observes, in the order the
source awaits them: the user lookup (step 1), the live capture and its
duration (step 2), live-embedding generation and validation (step 3), and
the speaker comparison (step 4). -/
structure VerifyEnv where
  get_user : Except Unit (Option (List ℝ))
  capture : Except CaptureErr (List Nat)
  duration : Except Unit Rat
  generate : Except Unit (List ℝ)
  valid : Bool
  speaker : Except Unit (Bool × ℝ)

/-- Method `verify_user`: the returned triple (or raised error) paired with
the list of `(success, score)` pairs passed to `_log_auth_attempt`.  Branch
by branch: a lookup failure raises before any logging; a missing user logs
`(false, 0.0)` and returns the not-enrolled outcome; both capture error
kinds log `(false, 0.0)` and raise; an `AudioProcessingError` from the
duration check escapes the capture handler and reaches the outer handler,
which logs `(false, 0.0)` and raises; a duration below 1 s, a generation
failure and a validation failure each log `(false, 0.0)`; a comparison
failure logs `(false, 0.0)` and raises; and the comparison outcome itself
is logged as `(match, score)` before the normal return. -/
def verify_user (env : VerifyEnv) :
    Except Unit (Bool × VerifyMsg × Option ℝ) × List (Bool × ℝ) :=
  match env.get_user with
  | .error _ => (.error (), [])
  | .ok none => (.ok (false, .notEnrolled, none), [(false, 0)])
  | .ok (some _) =>
    match env.capture with
    | .error _ => (.error (), [(false, 0)])
    | .ok _ =>
      match env.duration with
      | .error _ => (.error (), [(false, 0)])
      | .ok dur =>
        if dur < 1 then (.ok (false, .tooShort, none), [(false, 0)])
        else
          match env.generate with
          | .error _ => (.error (), [(false, 0)])
          | .ok _ =>
            if !env.valid then (.ok (false, .processingFailed, none), [(false, 0)])
            else
              match env.speaker with
              | .error _ => (.error (), [(false, 0)])
              | .ok (is_match, score) =>
                (.ok (is_match,
                    (if is_match then VerifyMsg.success else VerifyMsg.belowThreshold),
                    some score),
                  [(is_match, score)])

/-- Claim C6: every `verify_user` invocation, whether it returns or raises,
passes through `_log_auth_attempt` at most once, so at most one
`AuthAttempt` row is appended — never two for one call. -/
theorem verify_user_logs_at_most_once (env : VerifyEnv) :
    (verify_user env).2.length ≤ 1 := by
  obtain ⟨g, c, d, gen, v, s⟩ := env
  unfold verify_user
  rcases g with _ | _ | emb
  · simp
  · simp
  · rcases c with _ | wav
    · simp
    · rcases d with _ | dur
      · simp
      · dsimp only
        by_cases hdur : dur < 1
        · rw [if_pos hdur]; simp
        · rw [if_neg hdur]
          rcases gen with _ | live
          · simp
          · dsimp only
            cases v
            · simp
            · rcases s with _ | ⟨is_match, score⟩ <;> simp

/-- Claim C7: when the user lookup finds no record, `verify_user` logs
exactly one attempt with success false and score 0.0 and returns the
not-enrolled outcome (success false, not-enrolled message, no score)
normally, raising nothing. -/
theorem verify_user_not_enrolled (env : VerifyEnv)
    (h : env.get_user = Except.ok none) :
    verify_user env =
      (Except.ok (false, VerifyMsg.notEnrolled, none), [(false, 0)]) := by
  unfold verify_user
  rw [h]

/-- Witness for claim C7 at a concrete environment whose lookup finds no
user. -/
theorem verify_user_not_enrolled_witness :
    (VerifyEnv.mk (Except.ok none) (Except.ok []) (Except.ok 0)
          (Except.ok []) true (Except.ok (false, 0))).get_user =
        Except.ok none ∧
      verify_user
          (VerifyEnv.mk (Except.ok none) (Except.ok []) (Except.ok 0)
            (Except.ok []) true (Except.ok (false, 0))) =
        (Except.ok (false, VerifyMsg.notEnrolled, none), [(false, 0)]) :=
  ⟨rfl, verify_user_not_enrolled _ rfl⟩

/-- Error kinds of `process_audio_for_enrollment`: a download failure
(`AudioDownloadError`) or a processing failure (`AudioProcessingError`). -/
inductive FetchErr
  | download
  | processing
deriving DecidableEq

/-- Kinds of `EnrollmentError` raised by `enroll_user`, in source order:
download failure, processing failure, audio too short, embedding failure,
store failure. -/
inductive EnrollErr
  | download
  | processing
  | tooShort
  | embedding
  | store
deriving DecidableEq

/-- Collaborator outcomes one `enroll_user` call observes: the download and
conversion pipeline, the duration check on its result, embedding generation
and validation, and the user upsert. -/
structure EnrollEnv where
  processed : Except FetchErr (List Nat)
  duration : Except Unit Rat
  generate : Except Unit (List ℝ)
  valid : Bool
  upsert : Except Unit Unit

/-- Method `enroll_user`: the returned pair (or raised `EnrollmentError`
kind) together with two flags — whether the embedding step was entered
(`generate_embedding` invoked) and whether the store step was entered
(`create_or_update_user` invoked).  A failing duration read maps to the
processing kind (caught as `AudioProcessingError`); a duration strictly
below 3.0 raises the too-short kind before the embedding and store steps;
an invalid embedding is re-wrapped into the embedding kind by the
enclosing handler. -/
def enroll_user (env : EnrollEnv) :
    Except EnrollErr (String × Rat) × Bool × Bool :=
  match env.processed with
  | .error .download => (.error .download, false, false)
  | .error .processing => (.error .processing, false, false)
  | .ok _ =>
    match env.duration with
    | .error _ => (.error .processing, false, false)
    | .ok dur =>
      if dur < 3 then (.error .tooShort, false, false)
      else
        match env.generate with
        | .error _ => (.error .embedding, true, false)
        | .ok _ =>
          if !env.valid then (.error .embedding, true, false)
          else
            match env.upsert with
            | .error _ => (.error .store, true, true)
            | .ok _ => (.ok ("enrolled", 1), true, true)

/-- Claim C8: with processed audio in hand, a duration of exactly 3.0
seconds passes the check — enrollment proceeds to the embedding step and
does not raise the too-short error — while any duration strictly below 3.0
seconds raises the too-short `EnrollmentError` with the embedding and store
steps never entered. -/
theorem enroll_user_duration_gate (env : EnrollEnv) (wav : List Nat)
    (dur : Rat) (hok : env.processed = Except.ok wav)
    (hdur : env.duration = Except.ok dur) :
    (dur = 3 → (enroll_user env).2.1 = true ∧
      (enroll_user env).1 ≠ Except.error EnrollErr.tooShort) ∧
    (dur < 3 → enroll_user env = (Except.error EnrollErr.tooShort, false, false)) := by
  unfold enroll_user
  rw [hok, hdur]
  constructor
  · intro h3
    subst h3
    dsimp only
    rw [if_neg (show ¬((3 : Rat) < 3) by norm_num)]
    rcases hg : env.generate with _ | live
    · exact ⟨rfl, by simp⟩
    · dsimp only
      cases hv : env.valid
      · simp [hv]
      · rcases hu : env.upsert with _ | _ <;> simp [hv, hu]
  · intro hlt
    dsimp only
    rw [if_pos hlt]

/-- Witness for claim C8: a run whose processed audio lasts exactly 3.0 s
reaches the embedding step without the too-short error, and a run at
2.999 s raises it with the embedding and store steps never entered. -/
theorem enroll_user_duration_gate_witness :
    (enroll_user ⟨Except.ok [0], Except.ok 3,
        Except.ok (List.replicate 192 1), true, Except.ok ()⟩).2.1 = true ∧
      (enroll_user ⟨Except.ok [0], Except.ok 3,
          Except.ok (List.replicate 192 1), true, Except.ok ()⟩).1 ≠
        Except.error EnrollErr.tooShort ∧
      enroll_user ⟨Except.ok [0], Except.ok (2999 / 1000),
          Except.ok (List.replicate 192 1), true, Except.ok ()⟩ =
        (Except.error EnrollErr.tooShort, false, false) :=
  ⟨((enroll_user_duration_gate _ [0] 3 rfl rfl).1 rfl).1,
    ((enroll_user_duration_gate _ [0] 3 rfl rfl).1 rfl).2,
    (enroll_user_duration_gate _ [0] (2999 / 1000) rfl rfl).2 (by norm_num)⟩

/-! ## src/models/internal_models.py and src/clients/supabase_client.py -/

/-- Dataclass `User` of internal_models.py: a phone number, a
192-dimensional embedding, and the enrollment instant — no other field is
declared. -/
structure User where
  phone : String
  embedding : List ℝ
  enrolled_at : Rat

/-- Python attribute lookup of `id` on a `User` value: the dataclass
declares no such field, so the lookup finds nothing and raises
`AttributeError` at run time. -/
def user_lookup_id (_ : User) : Option String := none

/-- Row of the `users` table as the repository writes it: the dict built in
`create_or_update_user` with keys id, phone, embedding and enrolled_at. -/
structure UserRow where
  id : String
  phone : String
  embedding : List ℝ
  enrolled_at : Rat

/-- Supabase upsert with conflict key `id`, as issued by
`create_or_update_user`: replace the rows whose id matches, else append. -/
def upsert_by_id (store : List UserRow) (row : UserRow) : List UserRow :=
  if store.any fun r => r.id = row.id then
    store.map fun r => if r.id = row.id then row else r
  else store ++ [row]

/-- Method `create_or_update_user` of `UserRepository`: the row dict starts
with `str` of the id attribute of the user, and `User` has no id attribute,
so the lookup raises `AttributeError`; the method logs it and re-raises,
leaving the store untouched.  Were an id present, the row would be
upserted with conflict key id — not phone. -/
def create_or_update_user (store : List UserRow) (user : User) :
    Except String (List UserRow × User) :=
  match user_lookup_id user with
  | none => Except.error "AttributeError: id"
  | some uid =>
    Except.ok
      (upsert_by_id store ⟨uid, user.phone, user.embedding, user.enrolled_at⟩,
        user)

/-- Method `get_user_by_phone` of `UserRepository`: select the rows whose
phone matches and take the first, `none` when there is none. -/
def get_user_by_phone (store : List UserRow) (phone : String) : Option UserRow :=
  (store.filter fun r => r.phone = phone).head?

/-- Claim C1 evaluated on the code: `create_or_update_user` raises
`AttributeError` on every input, because the `User` dataclass declares no
id field while the repository keys its upsert on id.  Two successive calls
for users sharing a phone therefore both fail, no record is ever stored,
and `get_user_by_phone` over the untouched empty store returns nothing —
not the second user. -/
theorem create_or_update_user_attribute_error (store : List UserRow)
    (u1 u2 : User) (hphone : u1.phone = u2.phone) :
    create_or_update_user store u1 = Except.error "AttributeError: id" ∧
      create_or_update_user store u2 = Except.error "AttributeError: id" ∧
      get_user_by_phone [] u2.phone = none :=
  ⟨rfl, rfl, rfl⟩

/-- Witness for the claim C1 evaluation at two concrete enrollments of the
same phone number. -/
theorem create_or_update_user_attribute_error_witness :
    (User.mk "5551230000" (List.replicate 192 1) 0).phone =
        (User.mk "5551230000" (List.replicate 192 2) 7).phone ∧
      create_or_update_user [] (User.mk "5551230000" (List.replicate 192 1) 0) =
        Except.error "AttributeError: id" ∧
      create_or_update_user [] (User.mk "5551230000" (List.replicate 192 2) 7) =
        Except.error "AttributeError: id" ∧
      get_user_by_phone [] (User.mk "5551230000" (List.replicate 192 2) 7).phone =
        none :=
  ⟨rfl, (create_or_update_user_attribute_error [] _ _ rfl).1,
    (create_or_update_user_attribute_error []
      (User.mk "5551230000" (List.replicate 192 1) 0)
      (User.mk "5551230000" (List.replicate 192 2) 7) rfl).2.1,
    (create_or_update_user_attribute_error []
      (User.mk "5551230000" (List.replicate 192 1) 0)
      (User.mk "5551230000" (List.replicate 192 2) 7) rfl).2.2⟩

end VoiceAuth
